import Mathlib

/-!
Verification of `examples/graphene_apps/cppopenvino/ov_workload/setup.py`
from the hyperledger/avalon repository.

The script is a packaging manifest: after a Python-major-version guard it
invokes `setuptools.setup` once with fixed metadata.  We embed the script
as a pure function from the interpreter's reported version (and the list
of sub-packages discovered by `find_packages()`, which depends on the
directory contents) to the observable outcome of a run: the lines printed
to standard output, the exit status taken by the script itself, and the
sequence of calls made to the packaging step together with their argument
values.
-/

/-- A Python value, as far as the script's literals need: the script passes
both string literals and the numeric literal `0.6` to `setup`.  Numeric
literals are modelled by their exact decimal value (no arithmetic is ever
performed on them). -/
inductive PyVal where
  | str : String → PyVal
  | num : ℚ → PyVal
deriving DecidableEq, Repr

/-- The interpreter version triple reported by `sys.version_info`
(`major`, `minor`, `micro`). -/
structure VersionInfo where
  major : Nat
  minor : Nat
  micro : Nat
deriving DecidableEq, Repr

/-- The arguments of one call to `setuptools.setup`, mirroring the keyword
arguments appearing in the source. -/
structure SetupArgs where
  name : String
  version : PyVal
  description : String
  author : String
  url : String
  packages : List String
  package_data : List (String × List String)
  include_package_data : Bool
  entry_points : List (String × PyVal)
deriving DecidableEq, Repr

/-- The observable outcome of running the script: the lines printed to
standard output, the exit status when the script terminates itself
(`some c`; `none` means the script body ran to completion and the exit
status is determined by the packaging subsystem), and the list of calls
made to the packaging step. -/
structure RunResult where
  output : List String
  exitCode : Option Nat
  setupCalls : List SetupArgs
deriving DecidableEq, Repr

/-- The argument record of the single `setup(...)` call in the source,
parameterised by the sub-packages returned by `find_packages()`. -/
def ovSetupArgs (discovered : List String) : SetupArgs :=
  { name := "openvino_python_wrapper"
    version := PyVal.num 0.6
    description := "Openvino python wrapper for Graphene"
    author := "Hyperledger Avalon"
    url := "https://github.com/hyperledger/avalon"
    packages := discovered
    package_data := [("", ["ov_workload_config.toml"])]
    include_package_data := true
    entry_points := [] }

/-- The whole module, run top to bottom: if `sys.version_info[0] < 3` the
script prints the error line and exits with status 1; otherwise it calls
`setup` once with the literal metadata and terminates. -/
def runSetupScript (v : VersionInfo) (discovered : List String) : RunResult :=
  if v.major < 3 then
    { output := ["ERROR: must run with python3"]
      exitCode := some 1
      setupCalls := [] }
  else
    { output := []
      exitCode := none
      setupCalls := [ovSetupArgs discovered] }

/-- Claim C1: for every interpreter whose reported major version is less
than 3, running the script prints exactly the string
`ERROR: must run with python3` to standard output and terminates with exit
status 1. -/
theorem guard_fails_below_three (v : VersionInfo) (discovered : List String)
    (h : v.major < 3) :
    (runSetupScript v discovered).output = ["ERROR: must run with python3"] ∧
    (runSetupScript v discovered).exitCode = some 1 := by
  simp [runSetupScript, h]

/-- Witness for C1 at Python 2.7.18 with no discovered packages. -/
theorem guard_fails_below_three_witness :
    (runSetupScript ⟨2, 7, 18⟩ []).output = ["ERROR: must run with python3"] ∧
    (runSetupScript ⟨2, 7, 18⟩ []).exitCode = some 1 :=
  guard_fails_below_three ⟨2, 7, 18⟩ [] (by decide)

/-- Claim C2: for every interpreter whose reported major version is 3 or
higher, the script prints nothing and invokes the packaging step exactly
once. -/
theorem success_calls_setup_once (v : VersionInfo) (discovered : List String)
    (h : 3 ≤ v.major) :
    (runSetupScript v discovered).output = [] ∧
    (runSetupScript v discovered).setupCalls.length = 1 := by
  simp [runSetupScript, Nat.not_lt.mpr h]

/-- Witness for C2 at Python 3.8.10. -/
theorem success_calls_setup_once_witness :
    (runSetupScript ⟨3, 8, 10⟩ ["pkg"]).output = [] ∧
    (runSetupScript ⟨3, 8, 10⟩ ["pkg"]).setupCalls.length = 1 :=
  success_calls_setup_once ⟨3, 8, 10⟩ ["pkg"] (by decide)

/-- Claim C3: every call made to the packaging step carries the package
name `openvino_python_wrapper`, the version `0.6`, and the data file
`ov_workload_config.toml`, unmodified. -/
theorem setup_args_literal (v : VersionInfo) (discovered : List String)
    (args : SetupArgs) (h : args ∈ (runSetupScript v discovered).setupCalls) :
    args.name = "openvino_python_wrapper" ∧
    args.version = PyVal.num 0.6 ∧
    args.package_data = [("", ["ov_workload_config.toml"])] := by
  unfold runSetupScript at h
  by_cases hv : v.major < 3 <;> simp [hv] at h
  subst h
  exact ⟨rfl, rfl, rfl⟩

/-- Witness for C3 at Python 3.9.0. -/
theorem setup_args_literal_witness :
    (ovSetupArgs ["a"]).name = "openvino_python_wrapper" ∧
    (ovSetupArgs ["a"]).version = PyVal.num 0.6 ∧
    (ovSetupArgs ["a"]).package_data = [("", ["ov_workload_config.toml"])] :=
  setup_args_literal ⟨3, 9, 0⟩ ["a"] (ovSetupArgs ["a"])
    (by simp [runSetupScript])

/-- Claim C4: for every interpreter whose reported major version is less
than 3, the packaging step is never invoked: the failure path makes no
setup call at all. -/
theorem guard_blocks_setup (v : VersionInfo) (discovered : List String)
    (h : v.major < 3) :
    (runSetupScript v discovered).setupCalls = [] := by
  simp [runSetupScript, h]

/-- Witness for C4 at Python 2.7.18. -/
theorem guard_blocks_setup_witness :
    (runSetupScript ⟨2, 7, 18⟩ ["pkg"]).setupCalls = [] :=
  guard_blocks_setup ⟨2, 7, 18⟩ ["pkg"] (by decide)

/-- Claim C5: every call made to the packaging step passes an empty
entry-point mapping: zero executable hooks are registered. -/
theorem setup_entry_points_empty (v : VersionInfo) (discovered : List String)
    (args : SetupArgs) (h : args ∈ (runSetupScript v discovered).setupCalls) :
    args.entry_points = [] := by
  unfold runSetupScript at h
  by_cases hv : v.major < 3 <;> simp [hv] at h
  subst h
  rfl

/-- Witness for C5 at Python 3.9.0. -/
theorem setup_entry_points_empty_witness :
    (ovSetupArgs []).entry_points = [] :=
  setup_entry_points_empty ⟨3, 9, 0⟩ [] (ovSetupArgs [])
    (by simp [runSetupScript])

/-- Claim C6: on the success path (major version at least 3) the script
registers the full metadata set with the packaging subsystem: name,
version, description, author, homepage URL, the discovered sub-packages,
and one included non-code data file. -/
theorem success_registers_full_metadata (v : VersionInfo)
    (discovered : List String) (h : 3 ≤ v.major) :
    (runSetupScript v discovered).setupCalls =
      [{ name := "openvino_python_wrapper"
         version := PyVal.num 0.6
         description := "Openvino python wrapper for Graphene"
         author := "Hyperledger Avalon"
         url := "https://github.com/hyperledger/avalon"
         packages := discovered
         package_data := [("", ["ov_workload_config.toml"])]
         include_package_data := true
         entry_points := [] }] := by
  simp [runSetupScript, Nat.not_lt.mpr h, ovSetupArgs]

/-- Witness for C6 at Python 3.10.2. -/
theorem success_registers_full_metadata_witness :
    (runSetupScript ⟨3, 10, 2⟩ ["sub"]).setupCalls =
      [{ name := "openvino_python_wrapper"
         version := PyVal.num 0.6
         description := "Openvino python wrapper for Graphene"
         author := "Hyperledger Avalon"
         url := "https://github.com/hyperledger/avalon"
         packages := ["sub"]
         package_data := [("", ["ov_workload_config.toml"])]
         include_package_data := true
         entry_points := [] }] :=
  success_registers_full_metadata ⟨3, 10, 2⟩ ["sub"] (by decide)

/-- Claim C7: for every interpreter version the script terminates: after
the version check it either exits with status 1 having made no setup call,
or invokes the packaging routine exactly once and finishes.  The embedding
is a total function, so each run produces exactly one of the two outcomes. -/
theorem script_terminates_dichotomy (v : VersionInfo)
    (discovered : List String) :
    ((runSetupScript v discovered).exitCode = some 1 ∧
       (runSetupScript v discovered).setupCalls = []) ∨
    ((runSetupScript v discovered).exitCode = none ∧
       (runSetupScript v discovered).setupCalls.length = 1) := by
  unfold runSetupScript
  by_cases hv : v.major < 3 <;> simp [hv]

/-- Claim C8: the guard consults only the major component of the version:
every interpreter with major version exactly 3, whatever its minor and
micro components, behaves exactly like Python 3.0.0 and never takes the
error branch. -/
theorem guard_ignores_minor_micro (minor micro : Nat)
    (discovered : List String) :
    runSetupScript ⟨3, minor, micro⟩ discovered =
      runSetupScript ⟨3, 0, 0⟩ discovered ∧
    (runSetupScript ⟨3, minor, micro⟩ discovered).output = [] := by
  constructor <;> simp [runSetupScript]

/-- Claim C9: the version argument handed to the packaging step is the
numeric literal 0.6, not the string "0.6". -/
theorem version_is_numeric (v : VersionInfo) (discovered : List String)
    (args : SetupArgs) (h : args ∈ (runSetupScript v discovered).setupCalls) :
    args.version = PyVal.num 0.6 ∧ args.version ≠ PyVal.str "0.6" := by
  unfold runSetupScript at h
  by_cases hv : v.major < 3 <;> simp [hv] at h
  subst h
  exact ⟨rfl, by simp [ovSetupArgs]⟩

/-- Witness for C9 at Python 3.9.0. -/
theorem version_is_numeric_witness :
    (ovSetupArgs []).version = PyVal.num 0.6 ∧
    (ovSetupArgs []).version ≠ PyVal.str "0.6" :=
  version_is_numeric ⟨3, 9, 0⟩ [] (ovSetupArgs [])
    (by simp [runSetupScript])

/-- Claim C10: the script is deterministic in the interpreter's major
version: two runs on interpreters reporting the same major version (over
the same directory contents) produce identical observable behaviour. -/
theorem deterministic_in_major (v₁ v₂ : VersionInfo)
    (discovered : List String) (h : v₁.major = v₂.major) :
    runSetupScript v₁ discovered = runSetupScript v₂ discovered := by
  unfold runSetupScript
  rw [h]

/-- Witness for C10: Python 3.6.9 and Python 3.11.4 behave identically. -/
theorem deterministic_in_major_witness :
    runSetupScript ⟨3, 6, 9⟩ ["p"] = runSetupScript ⟨3, 11, 4⟩ ["p"] :=
  deterministic_in_major ⟨3, 6, 9⟩ ⟨3, 11, 4⟩ ["p"] (by decide)
